import Mathlib

/-!
Shallow embedding of `src/spritegen.py`, a sprite-sheet generator:
it probes a video's frame count and duration, picks a quality preset
from a three-tier threshold table, computes a tile grid and sample
rate, formats an output filename, and invokes an external renderer.
External effects (the ffmpeg probe and the render invocation) are
modelled as explicit inputs; Python exceptions are modelled as
`Except` values or explicit outcome constructors; Python floats are
modelled as rationals.
-/

namespace SpriteGen

/-- `VIDEO_FORMATS = ["mp4", "webm"]` from the source. -/
def VIDEO_FORMATS : List String := ["mp4", "webm"]

/-- The `quality_map` dict of `calculate_quality`, in insertion order.
A threshold of `none` stands for `float('inf')`, which every integer
is `≤`. Entries are (threshold, frames, frame_size). -/
def quality_map : List (Option Int × Nat × Nat) :=
  [(some 10, 4, 512), (some 50, 16, 256), (none, 64, 128)]

/-- The Python comparison `total_frames <= threshold`, where the
threshold may be `float('inf')`. -/
def threshold_matches (total_frames : Int) : Option Int → Bool
  | some t => decide (total_frames ≤ t)
  | none => true

/-- `calculate_quality`: iterate `quality_map` in order, return the
(frames, frame_size) of the first entry whose threshold admits
`total_frames`; the Python function returns `None` (here `none`) if no
entry matches. -/
def calculate_quality (total_frames : Int) : Option (Nat × Nat) :=
  (quality_map.find? fun q => threshold_matches total_frames q.1).map fun q => q.2

/-- Python 3 `round` on an exact rational: nearest integer, ties to
the even neighbour (exactly one of `⌊q⌋`, `⌊q⌋ + 1` is even). -/
def pyRound (q : ℚ) : ℤ :=
  let f := ⌊q⌋
  if q - f < 1/2 then f
  else if 1/2 < q - f then f + 1
  else if f % 2 = 0 then f else f + 1

/-- `cols = int(math.sqrt(frames))` from `generate_spritesheet`
(exact for the frame counts the quality table can deliver). -/
def grid_cols (frames : Nat) : Nat := Nat.sqrt frames

/-- `rows = math.ceil(frames / cols)` from `generate_spritesheet`,
with Python's true division embedded as exact rational division. -/
def grid_rows (frames : Nat) : Nat :=
  (Int.ceil ((frames : ℚ) / (grid_cols frames : ℚ))).toNat

/-- `new_frame_rate = round(frames / duration)` from
`generate_spritesheet`. -/
def new_frame_rate (frames : Nat) (duration : ℚ) : ℤ :=
  pyRound ((frames : ℚ) / duration)

/-- Python `s.split(".")` / `s.rsplit(".")` (with no maxsplit the two
agree): cut the string at every dot. Structurally recursive so that
concrete instances evaluate. `acc` holds the chars of the current
piece, reversed. -/
def py_split_dot_go : List Char → List Char → List String
  | [], acc => [String.mk acc.reverse]
  | c :: rest, acc =>
    if c = '.' then String.mk acc.reverse :: py_split_dot_go rest []
    else py_split_dot_go rest (c :: acc)

/-- Python `s.rsplit(".")` as a list of pieces. -/
def py_split_dot (s : String) : List String := py_split_dot_go s.toList []

/-- `basename = self.video_file.rsplit(".")[0]` from `_output_name`:
the text before the first dot (the whole name when there is no dot). -/
def file_basename (video_file : String) : String :=
  (py_split_dot video_file).headD video_file

/-- `_output_name`: `f"{basename}_{framerate}fps_{framesize}.png"`
with `framesize = rows * cols`. -/
def output_name (video_file : String) (framerate : ℤ) (rows cols : Nat) : String :=
  file_basename video_file ++ "_" ++ toString framerate ++ "fps_" ++
    toString (rows * cols) ++ ".png"

/-- Modelled on the spec's words for §4.4 Output Naming, for the
refinement comparison: `(source basename, sample rate, rows × cols) →`
string of form `<basename>_<rate>fps_<rows*cols>.png`. -/
def output_name_spec (basename : String) (rate : ℤ) (tiles : Nat) : String :=
  basename ++ "_" ++ toString rate ++ "fps_" ++ toString tiles ++ ".png"

/-- One stream record of the ffmpeg probe result: its `codec_type`
and its `nb_frames` field (`none` when the field is absent). -/
structure ProbeStream where
  codec_type : String
  nb_frames : Option Int
deriving DecidableEq, Repr

/-- The ffmpeg probe result: the stream list and the container
duration (`probe["format"]["duration"]`). -/
structure ProbeData where
  streams : List ProbeStream
  duration : ℚ
deriving DecidableEq, Repr

/-- `_get_framecount`: the probe itself may fail (`Except.error`);
otherwise take the first stream with `codec_type == "video"`; raise
`ValueError` (modelled as `Except.error`) when there is none or it
lacks `nb_frames`; else return the frame count and the duration. -/
def get_framecount (probe : Except String ProbeData) : Except String (Int × ℚ) :=
  match probe with
  | .error e => .error e
  | .ok p =>
    match p.streams.find? fun s => s.codec_type == "video" with
    | none => .error "Could not retrieve frame count from video."
    | some s =>
      match s.nb_frames with
      | none => .error "Could not retrieve frame count from video."
      | some n => .ok (n, p.duration)

/-- Outcome of `generate_spritesheet` for one video. `probeFailed`
and `renderFailed` are the two caught-and-printed error paths;
`saved` records the computed plan (tile size, cols, rows, rate) and
output path; `uncaught` marks a Python exception that no handler in
`generate_spritesheet` catches (the `TypeError` that unpacking a
`None` from `calculate_quality` would raise). -/
inductive Step where
  | probeFailed (msg : String)
  | saved (frame_size cols rows : Nat) (rate : ℤ) (path : String)
  | renderFailed (msg : String)
  | uncaught (msg : String)
deriving DecidableEq, Repr

/-- Whether a `Step` models an exception escaping
`generate_spritesheet`. -/
def Step.escapes : Step → Bool
  | .uncaught _ => true
  | _ => false

/-- `generate_spritesheet`. The external renderer is an input,
indexed by attempt number so that re-invocation would be observable;
the source invokes it once (attempt 0), inside its own
`try`/`except ffmpeg.Error`. -/
def generate_spritesheet (video_file : String)
    (probe : Except String ProbeData)
    (render : Nat → Except String Unit) : Step :=
  match get_framecount probe with
  | .error e => .probeFailed ("Error getting video information: " ++ e)
  | .ok (total_frames, duration) =>
    match calculate_quality total_frames with
    | none => .uncaught "TypeError: cannot unpack non-iterable NoneType object"
    | some (frames, frame_size) =>
      let cols := grid_cols frames
      let rows := grid_rows frames
      let rate := new_frame_rate frames duration
      let out := "output/" ++ output_name video_file rate rows cols
      match render 0 with
      | .ok _ => .saved frame_size cols rows rate out
      | .error e => .renderFailed ("Error generating sprite sheet: " ++ e)

/-- `file.rsplit(".")[1]` from the `__main__` loop: `none` models the
`IndexError` raised when the filename contains no dot. -/
def ext_segment (file : String) : Option String := (py_split_dot file)[1]?

/-- The `__main__` batch loop over the input directory listing: skip a
file when `file.rsplit(".")[1]` is not in `VIDEO_FORMATS`; otherwise
run `generate_spritesheet` on it. The loop's `except ValueError`
catches nothing that `generate_spritesheet` lets escape, so an
`IndexError` from the extension check (no dot) or an escaping
exception aborts the whole run: the result is the per-file outcomes
processed so far, paired with the aborting file if any. -/
def run_batch (probe : String → Except String ProbeData)
    (render : String → Nat → Except String Unit) :
    List String → List (String × Step) × Option String
  | [] => ([], none)
  | file :: rest =>
    match ext_segment file with
    | none => ([], some file)
    | some ext =>
      if ext ∈ VIDEO_FORMATS then
        let step := generate_spritesheet file (probe file) (render file)
        if step.escapes then ([], some file)
        else
          let r := run_batch probe render rest
          ((file, step) :: r.1, r.2)
      else run_batch probe render rest

/-- The claim-side notion of a file's extension: the text after the
last dot (used to state what the spec's "recognized extensions"
wording would require). -/
def file_extension (file : String) : String := (py_split_dot file).getLastD file

/-- Tier `i` of `quality_map` admits `n`: the Python condition
`total_frames <= threshold` holds for that entry. -/
def tier_matches (n : Int) (i : Nat) : Prop :=
  ∃ q, quality_map[i]? = some q ∧ threshold_matches n q.1 = true

/-- Tier `i` is the one `calculate_quality`'s first-match loop
selects for `n`: it admits `n` and no earlier tier does. -/
def tier_selected (n : Int) (i : Nat) : Prop :=
  tier_matches n i ∧ ∀ j < i, ¬ tier_matches n j

theorem calculate_quality_eq (n : Int) :
    calculate_quality n =
      if n ≤ 10 then some (4, 512)
      else if n ≤ 50 then some (16, 256)
      else some (64, 128) := by
  by_cases h1 : n ≤ 10 <;> by_cases h2 : n ≤ 50 <;>
    simp [calculate_quality, quality_map, threshold_matches, List.find?, h1, h2]

theorem tier_matches_zero (n : Int) : tier_matches n 0 ↔ n ≤ 10 := by
  simp [tier_matches, quality_map, threshold_matches]

theorem tier_matches_one (n : Int) : tier_matches n 1 ↔ n ≤ 50 := by
  simp [tier_matches, quality_map, threshold_matches]

theorem tier_matches_two (n : Int) : tier_matches n 2 := by
  simp [tier_matches, quality_map, threshold_matches]

theorem tier_matches_ge_three (n : Int) (i : Nat) (h : 3 ≤ i) :
    ¬ tier_matches n i := by
  have hnone : quality_map[i]? = none :=
    List.getElem?_eq_none (by simpa [quality_map] using h)
  simp [tier_matches, hnone]

/-- Claim C1: for every integer total frame count `n`,
`calculate_quality` returns sample frame count 4 and tile size 512
when `n ≤ 10`, sample 16 and size 256 when `10 < n ≤ 50`, and
sample 64 and size 128 when `n > 50`. -/
theorem C1_quality_thresholds (n : Int) :
    (n ≤ 10 → calculate_quality n = some (4, 512)) ∧
    (10 < n → n ≤ 50 → calculate_quality n = some (16, 256)) ∧
    (50 < n → calculate_quality n = some (64, 128)) := by
  refine ⟨fun h => ?_, fun h1 h2 => ?_, fun h => ?_⟩ <;> rw [calculate_quality_eq]
  · rw [if_pos h]
  · rw [if_neg (by omega), if_pos h2]
  · rw [if_neg (by omega), if_neg (by omega)]

/-- Witness for C1 at the concrete frame counts 5, 20 and 100. -/
theorem C1_quality_thresholds_witness :
    calculate_quality 5 = some (4, 512) ∧
    calculate_quality 20 = some (16, 256) ∧
    calculate_quality 100 = some (64, 128) :=
  ⟨(C1_quality_thresholds 5).1 (by decide),
   (C1_quality_thresholds 20).2.1 (by decide) (by decide),
   (C1_quality_thresholds 100).2.2 (by decide)⟩

/-- Claim C6: for every integer total frame count, exactly one quality
tier is selected by the first-match rule (the last tier's bound is
unbounded), so `calculate_quality` always returns a preset and never
falls through without a result. -/
theorem C6_exactly_one_tier (n : Int) :
    (∃! i, tier_selected n i) ∧ (calculate_quality n).isSome = true := by
  constructor
  · by_cases h1 : n ≤ 10
    · refine ⟨0, ⟨(tier_matches_zero n).mpr h1,
        fun j hj => absurd hj (Nat.not_lt_zero j)⟩, ?_⟩
      intro y hy
      by_contra hne
      exact hy.2 0 (Nat.pos_of_ne_zero hne) ((tier_matches_zero n).mpr h1)
    · by_cases h2 : n ≤ 50
      · refine ⟨1, ⟨(tier_matches_one n).mpr h2, ?_⟩, ?_⟩
        · intro j hj
          interval_cases j
          exact fun hm => h1 ((tier_matches_zero n).mp hm)
        · intro y hy
          rcases Nat.lt_or_ge y 3 with hy3 | hy3
          · interval_cases y
            · exact absurd ((tier_matches_zero n).mp hy.1) h1
            · rfl
            · exact absurd ((tier_matches_one n).mpr h2) (hy.2 1 (by omega))
          · exact absurd hy.1 (tier_matches_ge_three n y hy3)
      · refine ⟨2, ⟨tier_matches_two n, ?_⟩, ?_⟩
        · intro j hj
          interval_cases j
          · exact fun hm => h1 ((tier_matches_zero n).mp hm)
          · exact fun hm => h2 ((tier_matches_one n).mp hm)
        · intro y hy
          rcases Nat.lt_or_ge y 3 with hy3 | hy3
          · interval_cases y
            · exact absurd ((tier_matches_zero n).mp hy.1) h1
            · exact absurd ((tier_matches_one n).mp hy.1) h2
            · rfl
          · exact absurd hy.1 (tier_matches_ge_three n y hy3)
  · rw [calculate_quality_eq]
    split_ifs <;> rfl

theorem pyRound_eq_floor (q : ℚ) (h : q - ⌊q⌋ < 1/2) : pyRound q = ⌊q⌋ := by
  simp only [pyRound]
  rw [if_pos h]

theorem pyRound_eq_floor_add_one (q : ℚ) (h : 1/2 < q - ⌊q⌋) :
    pyRound q = ⌊q⌋ + 1 := by
  have h' : ¬(q - (⌊q⌋ : ℚ) < 1/2) := by linarith
  simp only [pyRound]
  rw [if_neg h', if_pos h]

theorem pyRound_nearest (q : ℚ) : |((pyRound q : ℚ)) - q| ≤ 1/2 := by
  have h1 : ((⌊q⌋ : ℚ)) ≤ q := Int.floor_le q
  have h2 : q < ⌊q⌋ + 1 := Int.lt_floor_add_one q
  simp only [pyRound]
  split_ifs with ha hb hc <;> rw [abs_le] <;> push_cast <;>
    constructor <;> linarith

/-- Claim C4: for every sample frame count `f` and duration `d > 0`,
the computed sample rate is a nearest integer to `f / d` (within 1/2
of it); in particular `f = 16`, `d = 8` gives rate 2. -/
theorem C4_sample_rate_nearest :
    (∀ (f : Nat) (d : ℚ), 0 < d →
      |((new_frame_rate f d : ℚ)) - (f : ℚ) / d| ≤ 1/2) ∧
    new_frame_rate 16 8 = 2 := by
  constructor
  · intro f d _
    exact pyRound_nearest ((f : ℚ) / d)
  · show pyRound (((16 : Nat) : ℚ) / 8) = 2
    have h16 : ((16 : Nat) : ℚ) / 8 = 2 := by norm_num
    have hf : ⌊(2 : ℚ)⌋ = 2 := by norm_num
    rw [h16, pyRound_eq_floor]
    · rw [hf]
    · rw [hf]
      norm_num

/-- Witness for C4: the duration hypothesis discharged at `f = 4`,
`d = 5/2`. -/
theorem C4_sample_rate_nearest_witness :
    (0 : ℚ) < 5/2 ∧
    |((new_frame_rate 4 (5/2) : ℚ)) - ((4 : Nat) : ℚ) / (5/2)| ≤ 1/2 :=
  ⟨by norm_num, C4_sample_rate_nearest.1 4 (5/2) (by norm_num)⟩

theorem grid_cols_four : grid_cols 4 = 2 := by
  rw [grid_cols, show (4 : ℕ) = 2 * 2 from rfl, Nat.sqrt_eq]

theorem grid_cols_sixteen : grid_cols 16 = 4 := by
  rw [grid_cols, show (16 : ℕ) = 4 * 4 from rfl, Nat.sqrt_eq]

theorem grid_cols_sixtyfour : grid_cols 64 = 8 := by
  rw [grid_cols, show (64 : ℕ) = 8 * 8 from rfl, Nat.sqrt_eq]

theorem grid_rows_four : grid_rows 4 = 2 := by
  rw [grid_rows, grid_cols_four]
  norm_num
  decide

theorem grid_rows_sixteen : grid_rows 16 = 4 := by
  rw [grid_rows, grid_cols_sixteen]
  norm_num
  decide

theorem grid_rows_sixtyfour : grid_rows 64 = 8 := by
  rw [grid_rows, grid_cols_sixtyfour]
  norm_num
  decide

/-- Claim C3: for every sample frame count delivered by a quality tier
(4, 16 or 64), columns is the integer square root (at least 1), rows
is the rational ceiling of `f / columns`, the grid covers all sampled
frames (`columns * rows ≥ f`), and the three grids are exactly 2×2,
4×4 and 8×8. -/
theorem C3_grid_planner (f : Nat) (h : f = 4 ∨ f = 16 ∨ f = 64) :
    grid_cols f = Nat.sqrt f ∧
    grid_rows f = (Int.ceil ((f : ℚ) / (grid_cols f : ℚ))).toNat ∧
    1 ≤ grid_cols f ∧
    f ≤ grid_cols f * grid_rows f ∧
    (f = 4 → grid_cols f = 2 ∧ grid_rows f = 2) ∧
    (f = 16 → grid_cols f = 4 ∧ grid_rows f = 4) ∧
    (f = 64 → grid_cols f = 8 ∧ grid_rows f = 8) := by
  rcases h with h | h | h <;> subst h
  · refine ⟨rfl, rfl, ?_, ?_, fun _ => ⟨grid_cols_four, grid_rows_four⟩,
      fun h => absurd h (by decide), fun h => absurd h (by decide)⟩
    · rw [grid_cols_four]
      decide
    · rw [grid_cols_four, grid_rows_four]
  · refine ⟨rfl, rfl, ?_, ?_, fun h => absurd h (by decide),
      fun _ => ⟨grid_cols_sixteen, grid_rows_sixteen⟩,
      fun h => absurd h (by decide)⟩
    · rw [grid_cols_sixteen]
      decide
    · rw [grid_cols_sixteen, grid_rows_sixteen]
  · refine ⟨rfl, rfl, ?_, ?_, fun h => absurd h (by decide),
      fun h => absurd h (by decide),
      fun _ => ⟨grid_cols_sixtyfour, grid_rows_sixtyfour⟩⟩
    · rw [grid_cols_sixtyfour]
      decide
    · rw [grid_cols_sixtyfour, grid_rows_sixtyfour]

/-- Witness for C3 at the concrete tier sample count 16. -/
theorem C3_grid_planner_witness :
    grid_cols 16 = Nat.sqrt 16 ∧
    grid_rows 16 = (Int.ceil (((16 : Nat) : ℚ) / (grid_cols 16 : ℚ))).toNat ∧
    1 ≤ grid_cols 16 ∧
    16 ≤ grid_cols 16 * grid_rows 16 ∧
    ((16 : Nat) = 4 → grid_cols 16 = 2 ∧ grid_rows 16 = 2) ∧
    ((16 : Nat) = 16 → grid_cols 16 = 4 ∧ grid_rows 16 = 4) ∧
    ((16 : Nat) = 64 → grid_cols 16 = 8 ∧ grid_rows 16 = 8) :=
  C3_grid_planner 16 (Or.inr (Or.inl rfl))

theorem output_name_two_two_two (video_file : String) :
    output_name video_file 2 2 2 = file_basename video_file ++ "_2fps_4.png" := by
  rw [output_name]
  simp only [String.append_assoc]
  congr 1

/-- Claim C5: the output filename is the basename (the text before
the first dot of the source filename), then `_`, the sample rate,
`fps_`, the tile count `rows * cols`, and `.png` — matching the
spec's pure naming function; concretely, basename `clip`, rate 2 and
16 tiles yield `clip_2fps_16.png`. -/
theorem C5_output_name (video_file : String) (rate : ℤ) (rows cols : Nat) :
    output_name video_file rate rows cols =
      output_name_spec (file_basename video_file) rate (rows * cols) ∧
    output_name "clip.mp4" 2 4 4 = "clip_2fps_16.png" := by
  exact ⟨rfl, rfl⟩

/-- Claim C2: end-to-end plan for a 5-frame, 2.5-second video: tier
(sample 4, tile size 512), a 2×2 grid, sample rate round(4/2.5) = 2,
and output path `output/<basename>_2fps_4.png`, for any source
filename. -/
theorem C2_end_to_end (video_file : String) :
    generate_spritesheet video_file
        (.ok ⟨[⟨"video", some 5⟩], 5/2⟩) (fun _ => .ok ()) =
      .saved 512 2 2 2
        ("output/" ++ file_basename video_file ++ "_2fps_4.png") := by
  have hp : get_framecount (.ok ⟨[⟨"video", some 5⟩], 5/2⟩) =
      .ok ((5 : Int), (5/2 : ℚ)) := rfl
  have hq : calculate_quality 5 = some (4, 512) := by
    rw [calculate_quality_eq]
    decide
  have hrate : new_frame_rate 4 (5/2) = 2 := by
    rw [new_frame_rate]
    have h4 : ((4 : Nat) : ℚ) / (5/2) = 8/5 := by norm_num
    have hf : ⌊(8/5 : ℚ)⌋ = 1 := by norm_num
    rw [h4, pyRound_eq_floor_add_one]
    · rw [hf]
      decide
    · rw [hf]
      norm_num
  simp only [generate_spritesheet, hp, hq, hrate, grid_cols_four,
    grid_rows_four, output_name_two_two_two, String.append_assoc]

theorem get_framecount_error_of_cause (p : ProbeData)
    (h : p.streams.find? (fun s => s.codec_type == "video") = none ∨
      ∃ s, p.streams.find? (fun s => s.codec_type == "video") = some s ∧
        s.nb_frames = none) :
    get_framecount (.ok p) = .error "Could not retrieve frame count from video." := by
  rcases h with h | ⟨s, hs, hn⟩
  · simp [get_framecount, h]
  · simp [get_framecount, hs, hn]

theorem generate_probeFailed (video_file : String)
    (probe : Except String ProbeData) (render : Nat → Except String Unit)
    (e : String) (h : get_framecount probe = .error e) :
    generate_spritesheet video_file probe render =
      .probeFailed ("Error getting video information: " ++ e) := by
  simp [generate_spritesheet, h]

theorem generate_renderFailed (video_file : String)
    (probe : Except String ProbeData) (render : Nat → Except String Unit)
    (n : Int) (d : ℚ) (e : String)
    (hp : get_framecount probe = .ok (n, d)) (hr : render 0 = .error e) :
    generate_spritesheet video_file probe render =
      .renderFailed ("Error generating sprite sheet: " ++ e) := by
  have hq := calculate_quality_eq n
  split_ifs at hq <;> simp [generate_spritesheet, hp, hq, hr]

theorem generate_not_escapes (video_file : String)
    (probe : Except String ProbeData) (render : Nat → Except String Unit) :
    (generate_spritesheet video_file probe render).escapes = false := by
  rcases hgf : get_framecount probe with e | p
  · simp [generate_spritesheet, hgf, Step.escapes]
  · obtain ⟨n, d⟩ := p
    have hq := calculate_quality_eq n
    rcases hr : render 0 with e | u <;> split_ifs at hq <;>
      simp [generate_spritesheet, hgf, hq, hr, Step.escapes]

theorem generate_congr_render (video_file : String)
    (probe : Except String ProbeData) (r r' : Nat → Except String Unit)
    (h : r 0 = r' 0) :
    generate_spritesheet video_file probe r =
      generate_spritesheet video_file probe r' := by
  rcases hgf : get_framecount probe with e | p
  · simp [generate_spritesheet, hgf]
  · obtain ⟨n, d⟩ := p
    have hq := calculate_quality_eq n
    split_ifs at hq <;> simp [generate_spritesheet, hgf, hq, h]

theorem run_batch_cons_no_ext (probe : String → Except String ProbeData)
    (render : String → Nat → Except String Unit) (file : String)
    (rest : List String) (h : ext_segment file = none) :
    run_batch probe render (file :: rest) = ([], some file) := by
  simp [run_batch, h]

theorem run_batch_cons_skip (probe : String → Except String ProbeData)
    (render : String → Nat → Except String Unit) (file ext : String)
    (rest : List String) (h : ext_segment file = some ext)
    (hmem : ext ∉ VIDEO_FORMATS) :
    run_batch probe render (file :: rest) = run_batch probe render rest := by
  simp [run_batch, h, hmem]

theorem run_batch_cons_run (probe : String → Except String ProbeData)
    (render : String → Nat → Except String Unit) (file ext : String)
    (rest : List String) (h : ext_segment file = some ext)
    (hmem : ext ∈ VIDEO_FORMATS) :
    run_batch probe render (file :: rest) =
      ((file, generate_spritesheet file (probe file) (render file)) ::
        (run_batch probe render rest).1,
       (run_batch probe render rest).2) := by
  simp [run_batch, h, hmem, generate_not_escapes]

/-- Claim C7: a probe failure (no video stream, or the frame-count
field absent) on a video in a batch is caught inside the per-video
handling path and reported (`generate_spritesheet` returns the
printed `probeFailed` outcome rather than letting the exception
escape), and the batch continues: the remaining files' results are
exactly those of running the batch on them alone. -/
theorem C7_probe_failure_contained (file ext : String) (rest : List String)
    (probe : String → Except String ProbeData)
    (render : String → Nat → Except String Unit) (p : ProbeData)
    (hext : ext_segment file = some ext) (hmem : ext ∈ VIDEO_FORMATS)
    (hp : probe file = .ok p)
    (hcause : p.streams.find? (fun s => s.codec_type == "video") = none ∨
      ∃ s, p.streams.find? (fun s => s.codec_type == "video") = some s ∧
        s.nb_frames = none) :
    generate_spritesheet file (probe file) (render file) =
      .probeFailed ("Error getting video information: " ++
        "Could not retrieve frame count from video.") ∧
    run_batch probe render (file :: rest) =
      ((file, .probeFailed ("Error getting video information: " ++
          "Could not retrieve frame count from video.")) ::
        (run_batch probe render rest).1,
       (run_batch probe render rest).2) := by
  have herr : get_framecount (probe file) =
      .error "Could not retrieve frame count from video." := by
    rw [hp]
    exact get_framecount_error_of_cause p hcause
  have h1 := generate_probeFailed file (probe file) (render file) _ herr
  exact ⟨h1, by rw [run_batch_cons_run probe render file ext rest hext hmem, h1]⟩

/-- Witness for C7: a one-stream probe result whose only stream is an
audio stream, on the first of two batch files. -/
theorem C7_probe_failure_contained_witness :
    generate_spritesheet "clip.mp4"
        (.ok ⟨[⟨"audio", none⟩], 1⟩) (fun _ => .ok ()) =
      .probeFailed ("Error getting video information: " ++
        "Could not retrieve frame count from video.") ∧
    run_batch (fun _ => .ok ⟨[⟨"audio", none⟩], 1⟩) (fun _ _ => .ok ())
        ["clip.mp4", "next.webm"] =
      (("clip.mp4", .probeFailed ("Error getting video information: " ++
          "Could not retrieve frame count from video.")) ::
        (run_batch (fun _ => .ok ⟨[⟨"audio", none⟩], 1⟩) (fun _ _ => .ok ())
          ["next.webm"]).1,
       (run_batch (fun _ => .ok ⟨[⟨"audio", none⟩], 1⟩) (fun _ _ => .ok ())
          ["next.webm"]).2) :=
  C7_probe_failure_contained "clip.mp4" "mp4" ["next.webm"]
    (fun _ => .ok ⟨[⟨"audio", none⟩], 1⟩) (fun _ _ => .ok ())
    ⟨[⟨"audio", none⟩], 1⟩ (by decide) (by decide) rfl (Or.inl (by decide))

/-- Claim C8: a failure of the external render stage on a video in a
batch is reported (`renderFailed` with the printed message), aborts
only that video (no `saved` outcome for it), is not retried (only
attempt 0 of the renderer is ever consulted), and does not propagate:
the remaining files' results are exactly those of running the batch
on them alone. -/
theorem C8_render_failure_contained (file ext : String) (rest : List String)
    (probe : String → Except String ProbeData)
    (render : String → Nat → Except String Unit)
    (n : Int) (d : ℚ) (e : String)
    (hext : ext_segment file = some ext) (hmem : ext ∈ VIDEO_FORMATS)
    (hp : get_framecount (probe file) = .ok (n, d))
    (hr : render file 0 = .error e) :
    generate_spritesheet file (probe file) (render file) =
      .renderFailed ("Error generating sprite sheet: " ++ e) ∧
    run_batch probe render (file :: rest) =
      ((file, .renderFailed ("Error generating sprite sheet: " ++ e)) ::
        (run_batch probe render rest).1,
       (run_batch probe render rest).2) ∧
    (∀ render' : Nat → Except String Unit, render' 0 = render file 0 →
      generate_spritesheet file (probe file) render' =
        generate_spritesheet file (probe file) (render file)) := by
  have h1 := generate_renderFailed file (probe file) (render file) n d e hp hr
  refine ⟨h1, ?_, fun render' h => generate_congr_render file (probe file)
    render' (render file) h⟩
  rw [run_batch_cons_run probe render file ext rest hext hmem, h1]

/-- Witness for C8: a failing renderer on the first of two batch
files, with a successful probe. -/
theorem C8_render_failure_contained_witness :
    generate_spritesheet "clip.mp4"
        (.ok ⟨[⟨"video", some 5⟩], 5/2⟩) (fun _ => .error "boom") =
      .renderFailed ("Error generating sprite sheet: " ++ "boom") ∧
    run_batch (fun _ => .ok ⟨[⟨"video", some 5⟩], 5/2⟩)
        (fun _ _ => .error "boom") ["clip.mp4", "next.webm"] =
      (("clip.mp4", .renderFailed ("Error generating sprite sheet: " ++ "boom")) ::
        (run_batch (fun _ => .ok ⟨[⟨"video", some 5⟩], 5/2⟩)
          (fun _ _ => .error "boom") ["next.webm"]).1,
       (run_batch (fun _ => .ok ⟨[⟨"video", some 5⟩], 5/2⟩)
          (fun _ _ => .error "boom") ["next.webm"]).2) ∧
    (∀ render' : Nat → Except String Unit, render' 0 = .error "boom" →
      generate_spritesheet "clip.mp4" (.ok ⟨[⟨"video", some 5⟩], 5/2⟩) render' =
        generate_spritesheet "clip.mp4" (.ok ⟨[⟨"video", some 5⟩], 5/2⟩)
          (fun _ => .error "boom")) :=
  C8_render_failure_contained "clip.mp4" "mp4" ["next.webm"]
    (fun _ => .ok ⟨[⟨"video", some 5⟩], 5/2⟩) (fun _ _ => .error "boom")
    5 (5/2) "boom" (by decide) (by decide) rfl rfl

/-- Counterexample to claim C9 as stated: `clip.tar.mp4` has the
recognized extension `mp4` (the text after its last dot), yet the
batch loop skips it — the code tests `rsplit(".")[1]`, here `tar`,
not the extension — so it is not true that exactly the files with a
recognized extension are processed. -/
theorem C9_counterexample :
    file_extension "clip.tar.mp4" = "mp4" ∧
    "mp4" ∈ VIDEO_FORMATS ∧
    run_batch (fun _ => .error "probe") (fun _ _ => .ok ())
      ["clip.tar.mp4"] = ([], none) := by
  refine ⟨by decide, by decide, ?_⟩
  rw [run_batch_cons_skip (fun _ => .error "probe") (fun _ _ => .ok ())
    "clip.tar.mp4" "tar" [] (by decide) (by decide)]
  rfl

/-- Claim C9 (amended): in directory mode the loop tests the segment
after the first dot (`rsplit(".")[1]`): a file is processed exactly
when that segment is `mp4` or `webm`, and skipped otherwise; for a
filename with exactly one dot this segment is the file's extension,
so such files are processed exactly when their extension is
recognized. -/
theorem C9_extension_check_amended (file ext : String) (rest : List String)
    (probe : String → Except String ProbeData)
    (render : String → Nat → Except String Unit)
    (hext : ext_segment file = some ext) :
    (ext ∈ VIDEO_FORMATS →
      run_batch probe render (file :: rest) =
        ((file, generate_spritesheet file (probe file) (render file)) ::
          (run_batch probe render rest).1,
         (run_batch probe render rest).2)) ∧
    (ext ∉ VIDEO_FORMATS →
      run_batch probe render (file :: rest) = run_batch probe render rest) ∧
    (∀ stem, py_split_dot file = [stem, ext] → file_extension file = ext) := by
  refine ⟨fun hmem => run_batch_cons_run probe render file ext rest hext hmem,
    fun hmem => run_batch_cons_skip probe render file ext rest hext hmem,
    fun stem h => ?_⟩
  rw [file_extension, h]
  rfl

/-- Witness for C9 (amended) at the single-dot filename `clip.mp4`. -/
theorem C9_extension_check_amended_witness :
    ("mp4" ∈ VIDEO_FORMATS →
      run_batch (fun _ => .error "probe") (fun _ _ => .ok ()) ["clip.mp4"] =
        (("clip.mp4", generate_spritesheet "clip.mp4"
            ((fun _ : String => (.error "probe" : Except String ProbeData))
              "clip.mp4")
            ((fun _ : String => fun _ : Nat => (.ok () : Except String Unit))
              "clip.mp4")) ::
          (run_batch (fun _ => .error "probe") (fun _ _ => .ok ())
            ([] : List String)).1,
         (run_batch (fun _ => .error "probe") (fun _ _ => .ok ())
            ([] : List String)).2)) ∧
    ("mp4" ∉ VIDEO_FORMATS →
      run_batch (fun _ => .error "probe") (fun _ _ => .ok ()) ["clip.mp4"] =
        run_batch (fun _ => .error "probe") (fun _ _ => .ok ())
          ([] : List String)) ∧
    (∀ stem, py_split_dot "clip.mp4" = [stem, "mp4"] →
      file_extension "clip.mp4" = "mp4") :=
  C9_extension_check_amended "clip.mp4" "mp4" [] (fun _ => .error "probe")
    (fun _ _ => .ok ()) (by decide)

/-- Claim C10: a filename with no dot makes the extension check
`file.rsplit(".")[1]` raise an `IndexError` that the loop's
`except ValueError` does not catch: the whole batch run aborts at
that file — earlier files' results are kept, the dotless file and
everything after it are not processed. -/
theorem C10_dotless_filename_aborts (pre : List String) (f : String)
    (post : List String) (probe : String → Except String ProbeData)
    (render : String → Nat → Except String Unit)
    (hpre : ∀ g ∈ pre, (ext_segment g).isSome)
    (hf : ext_segment f = none) :
    (run_batch probe render (pre ++ f :: post)).2 = some f ∧
    (run_batch probe render (pre ++ f :: post)).1 =
      (run_batch probe render pre).1 := by
  induction pre with
  | nil =>
    rw [List.nil_append, run_batch_cons_no_ext probe render f post hf]
    exact ⟨rfl, rfl⟩
  | cons g gs ih =>
    have hg : (ext_segment g).isSome := hpre g (by simp)
    obtain ⟨ext, hext⟩ := Option.isSome_iff_exists.mp hg
    have hrest := ih fun x hx => hpre x (by simp [hx])
    by_cases hmem : ext ∈ VIDEO_FORMATS
    · rw [List.cons_append,
        run_batch_cons_run probe render g ext (gs ++ f :: post) hext hmem,
        run_batch_cons_run probe render g ext gs hext hmem]
      exact ⟨hrest.1, by rw [hrest.2]⟩
    · rw [List.cons_append,
        run_batch_cons_skip probe render g ext (gs ++ f :: post) hext hmem,
        run_batch_cons_skip probe render g ext gs hext hmem]
      exact hrest

/-- Witness for C10: the dotless file `noext` between `a.mp4` and
`b.webm` aborts the run at `noext`. -/
theorem C10_dotless_filename_aborts_witness :
    (run_batch (fun _ => .error "probe") (fun _ _ => .ok ())
      (["a.mp4"] ++ "noext" :: ["b.webm"])).2 = some "noext" ∧
    (run_batch (fun _ => .error "probe") (fun _ _ => .ok ())
      (["a.mp4"] ++ "noext" :: ["b.webm"])).1 =
      (run_batch (fun _ => .error "probe") (fun _ _ => .ok ()) ["a.mp4"]).1 :=
  C10_dotless_filename_aborts ["a.mp4"] "noext" ["b.webm"]
    (fun _ => .error "probe") (fun _ _ => .ok ())
    (by intro g hg; simp at hg; subst hg; decide) (by decide)

end SpriteGen
